import Mathlib

/-!
Verification of the simtel EventIO object parsers of
`eventio/simtel/objects.py` against their specification.

The byte-level primitive codec (`eventio/tools.py`, `eventio/bits.py`) is
not among the sources at hand; those primitives are modelled from the
specification, section 4.1, and each is marked as such in its doc comment.
The parsers themselves are translated from `objects.py`.

A stream is a list of bytes (naturals, taken mod 256); readers return
`Except String (value × rest)`, with the error string standing for the
Python exception that the corresponding code path raises.  32-bit floats
are kept as their raw little-endian 32-bit patterns: no floating-point
arithmetic happens in any of the modelled code paths, the parsers only
move float values from the stream into records.
-/

/-- Interpret `u` as a two's-complement signed integer of width `w` bits. -/
def toSigned (w u : Nat) : Int :=
  if u < 2 ^ (w - 1) then (u : Int) else (u : Int) - 2 ^ w

/-- Little-endian value of a byte list (each byte taken mod 256). -/
def leNat : List Nat → Nat
  | [] => 0
  | b :: bs => b % 256 + 256 * leNat bs

/-- Modelled from the spec: the byte-source contract of section 6 — read
exactly `n` bytes, failing on a short read. -/
def readBytes (n : Nat) (s : List Nat) : Except String (List Nat × List Nat) :=
  if n ≤ s.length then .ok (s.take n, s.drop n) else .error "UnexpectedEndOfStream"

/-- Sequencing of stream readers. -/
def epBind {α β : Type} (x : Except String (α × List Nat))
    (f : α → List Nat → Except String (β × List Nat)) :
    Except String (β × List Nat) :=
  match x with
  | .error e => .error e
  | .ok (a, s) => f a s

@[simp] theorem epBind_ok {α β : Type} (a : α) (s : List Nat)
    (f : α → List Nat → Except String (β × List Nat)) :
    epBind (.ok (a, s)) f = f a s := rfl

@[simp] theorem epBind_error {α β : Type} (e : String)
    (f : α → List Nat → Except String (β × List Nat)) :
    epBind (α := α) (.error e) f = .error e := rfl

/-- Modelled from the spec: fixed little-endian unsigned scalar read
(section 4.1, `read_from` with an unsigned format). -/
def readUInt (nbytes : Nat) (s : List Nat) : Except String (Nat × List Nat) :=
  epBind (readBytes nbytes s) fun bs r => .ok (leNat bs, r)

/-- Modelled from the spec: fixed little-endian signed scalar read
(section 4.1, `read_from` with a signed format). -/
def readSInt (nbytes : Nat) (s : List Nat) : Except String (Int × List Nat) :=
  epBind (readBytes nbytes s) fun bs r => .ok (toSigned (8 * nbytes) (leNat bs), r)

/-- Modelled from the spec: a timestamp is two little-endian 32-bit unsigned
integers `(seconds, nanoseconds)` (section 4.1, `read_time`). -/
def read_time (s : List Nat) : Except String ((Nat × Nat) × List Nat) :=
  epBind (readUInt 4 s) fun sec s1 =>
  epBind (readUInt 4 s1) fun nano s2 => .ok ((sec, nano), s2)

/-- Modelled from the spec: typed array read of `n` little-endian signed
integers of width `nbytes` bytes (section 4.1, `read_array`). -/
def readSIntArray (nbytes : Nat) : Nat → List Nat → Except String (List Int × List Nat)
  | 0, s => .ok ([], s)
  | n + 1, s =>
    epBind (readSInt nbytes s) fun v s1 =>
    epBind (readSIntArray nbytes n s1) fun vs s2 => .ok (v :: vs, s2)

/-- Modelled from the spec: typed array read of `n` little-endian unsigned
integers of width `nbytes` bytes (section 4.1, `read_array`); also used for
32-bit float arrays, each float kept as its raw 32-bit pattern. -/
def readUIntArray (nbytes : Nat) : Nat → List Nat → Except String (List Nat × List Nat)
  | 0, s => .ok ([], s)
  | n + 1, s =>
    epBind (readUInt nbytes s) fun v s1 =>
    epBind (readUIntArray nbytes n s1) fun vs s2 => .ok (v :: vs, s2)

/-- Modelled from the spec: the unsigned stage of `read_utf8_like_signed_int`
of `eventio/tools.py` (section 4.1): read bytes while the high bit is set; the
low 7 bits of each are concatenated little-endian into an unsigned value. -/
def decodeVarUInt : List Nat → Except String (Nat × List Nat)
  | [] => .error "UnexpectedEndOfStream"
  | b :: bs =>
    if b % 256 < 128 then .ok (b % 256, bs)
    else epBind (decodeVarUInt bs) fun u r => .ok (b % 256 - 128 + 128 * u, r)

/-- Modelled from the spec: the signed ZigZag mapping
`value = (u >> 1) XOR -(u AND 1)` of section 4.1, written in its equivalent
branching form: even codes are nonnegative halves, odd codes are
`-(u / 2) - 1`. -/
def zigzagDecode (u : Nat) : Int :=
  if u % 2 = 0 then ((u / 2 : Nat) : Int) else -((u / 2 : Nat) : Int) - 1

/-- Modelled from the spec: `read_utf8_like_signed_int` of `eventio/tools.py`
(the scount decoder, section 4.1). -/
def read_utf8_like_signed_int (s : List Nat) : Except String (Int × List Nat) :=
  epBind (decodeVarUInt s) fun u r => .ok (zigzagDecode u, r)

/-- Modelled from the spec: the differential ADC vector decoder
`read_vector_of_uint32_scount_differential` of `eventio/tools.py`
(section 4.1): `prev = 0`; for each of `n` outputs decode a scount `delta`,
set `cur = prev + delta`, emit `cur` as u16, set `prev = cur`.  The spec
requires the optimized variant used by `objects.py` to produce identical
output. -/
def readDiffVector : Nat → Int → List Nat → Except String (List Nat × List Nat)
  | 0, _, s => .ok ([], s)
  | n + 1, prev, s =>
    epBind (read_utf8_like_signed_int s) fun delta s1 =>
    epBind (readDiffVector n (prev + delta) s1) fun xs s2 =>
      .ok (((prev + delta) % 65536).toNat :: xs, s2)

/-! ### Encoders

The encoders below are verification scaffolding only: they build concrete
byte streams for the theorems, and are inverted by the modelled decoders. -/

/-- Little-endian 4-byte encoding of a 32-bit word. -/
def u32enc (v : Nat) : List Nat :=
  [v % 256, v / 256 % 256, v / 65536 % 256, v / 16777216 % 256]

/-- Little-endian 4-byte two's-complement encoding of a signed 32-bit value. -/
def i32enc (v : Int) : List Nat := u32enc (v % 4294967296).toNat

/-- Little-endian 2-byte two's-complement encoding of a signed 16-bit value. -/
def i16enc (v : Int) : List Nat :=
  [(v % 65536).toNat % 256, (v % 65536).toNat / 256 % 256]

/-- Fuelled base-128 continuation encoder (structural so that it reduces). -/
def varUIntEncAux : Nat → Nat → List Nat
  | 0, u => [u % 128]
  | fuel + 1, u => if u < 128 then [u] else (u % 128 + 128) :: varUIntEncAux fuel (u / 128)

/-- Base-128 continuation encoding of an unsigned value. -/
def varUIntEnc (u : Nat) : List Nat := varUIntEncAux u u

/-- The signed ZigZag encoder, inverse of `zigzagDecode`. -/
def zigzagEncode (v : Int) : Nat :=
  if 0 ≤ v then 2 * v.toNat else 2 * (-(v + 1)).toNat + 1

/-- Encoder for the scount (variable-length signed integer) format. -/
def scountEnc (v : Int) : List Nat := varUIntEnc (zigzagEncode v)

/-- Concatenated encoding of a list of values under a per-value encoder. -/
def encList {α : Type} (f : α → List Nat) : List α → List Nat
  | [] => []
  | x :: xs => f x ++ encList f xs

/-! ### Round-trip lemmas for the primitive codec -/

theorem readBytes_append (n : Nat) (xs r : List Nat) (h : xs.length = n) :
    readBytes n (xs ++ r) = .ok (xs, r) := by
  subst h
  simp [readBytes, List.take_left, List.drop_left]

theorem leNat_u32enc (v : Nat) : leNat (u32enc v) = v % 4294967296 := by
  simp only [u32enc, leNat]
  omega

theorem readUInt4_enc (v : Nat) (hv : v < 4294967296) (r : List Nat) :
    readUInt 4 (u32enc v ++ r) = .ok (v, r) := by
  rw [readUInt, readBytes_append 4 _ r (by simp [u32enc]), epBind_ok, leNat_u32enc]
  congr 1
  exact congrArg (·, r) (Nat.mod_eq_of_lt hv)

theorem readSInt4_enc (v : Int) (h1 : -2147483648 ≤ v) (h2 : v < 2147483648)
    (r : List Nat) : readSInt 4 (i32enc v ++ r) = .ok (v, r) := by
  rw [readSInt, i32enc, readBytes_append 4 _ r (by simp [u32enc]), epBind_ok, leNat_u32enc]
  have hlt : (v % 4294967296).toNat < 4294967296 := by omega
  rw [Nat.mod_eq_of_lt hlt]
  simp only [toSigned]
  congr 1
  refine congrArg (·, r) ?_
  norm_num
  split <;> omega

theorem readSInt2_enc (v : Int) (h1 : -32768 ≤ v) (h2 : v < 32768)
    (r : List Nat) : readSInt 2 (i16enc v ++ r) = .ok (v, r) := by
  rw [readSInt, readBytes_append 2 _ r (by simp [i16enc]), epBind_ok]
  have hle : leNat (i16enc v) = (v % 65536).toNat := by
    simp only [i16enc, leNat]
    omega
  rw [hle]
  simp only [toSigned]
  congr 1
  refine congrArg (·, r) ?_
  norm_num
  split <;> omega

theorem decodeVar_encAux (fuel : Nat) :
    ∀ u : Nat, u ≤ fuel → ∀ r : List Nat,
      decodeVarUInt (varUIntEncAux fuel u ++ r) = .ok (u, r) := by
  induction fuel with
  | zero =>
    intro u hu r
    have h0 : u = 0 := Nat.le_zero.mp hu
    subst h0
    simp [varUIntEncAux, decodeVarUInt]
  | succ n ih =>
    intro u hu r
    by_cases h : u < 128
    · have hu256 : u % 256 = u := Nat.mod_eq_of_lt (by omega)
      rw [varUIntEncAux, if_pos h, List.cons_append, List.nil_append, decodeVarUInt,
        hu256, if_pos h]
    · have hb : (u % 128 + 128) % 256 = u % 128 + 128 := Nat.mod_eq_of_lt (by omega)
      have hnb : ¬ (u % 128 + 128) % 256 < 128 := by omega
      have hstep : decodeVarUInt ((u % 128 + 128) :: (varUIntEncAux n (u / 128) ++ r))
          = epBind (decodeVarUInt (varUIntEncAux n (u / 128) ++ r)) fun w r2 =>
              .ok ((u % 128 + 128) % 256 - 128 + 128 * w, r2) := by
        rw [decodeVarUInt, if_neg hnb]
      rw [varUIntEncAux, if_neg h, List.cons_append, hstep,
        ih (u / 128) (by omega) r, epBind_ok, hb]
      have hval : u % 128 + 128 - 128 + 128 * (u / 128) = u := by omega
      rw [hval]

theorem decodeVarUInt_enc (u : Nat) (r : List Nat) :
    decodeVarUInt (varUIntEnc u ++ r) = .ok (u, r) :=
  decodeVar_encAux u u (Nat.le_refl u) r

theorem readScount_enc (v : Int) (r : List Nat) :
    read_utf8_like_signed_int (scountEnc v ++ r) = .ok (v, r) := by
  rw [read_utf8_like_signed_int, scountEnc, decodeVarUInt_enc, epBind_ok]
  congr 1
  refine congrArg (·, r) ?_
  simp only [zigzagDecode, zigzagEncode]
  by_cases h : 0 ≤ v
  · rw [if_pos h]
    rw [if_pos (by omega)]
    omega
  · rw [if_neg h]
    rw [if_neg (by omega)]
    omega

/-! ### TrackEvent (type range 2100 and up) and TelEvent (2200 and up)

Translated from `SimTelTrackEvent` and `SimTelTelEvent` of `objects.py`. -/

def SimTelTrackEvent.id_to_telid (eventio_id : Nat) : Nat :=
  (eventio_id &&& 0xff) ||| ((eventio_id &&& 0x3f000000) >>> 16)

def SimTelTrackEvent.type_to_telid (eventio_type : Nat) : Nat :=
  100 * ((eventio_type - 2100) / 1000) + (eventio_type - 2100) % 1000

def SimTelTrackEvent.telid_to_type (telescope_id : Nat) : Nat :=
  2100 + telescope_id % 100 + 1000 * (telescope_id / 100)

def SimTelTelEvent.type_to_telid (eventio_type : Nat) : Nat :=
  100 * ((eventio_type - 2200) / 1000) + (eventio_type - 2200) % 1000

def SimTelTelEvent.telid_to_type (telescope_id : Nat) : Nat :=
  2200 + telescope_id % 100 + 1000 * (telescope_id / 100)

/-- The state of a constructed `SimTelTrackEvent` object. -/
structure TrackEvent where
  telescope_id : Nat
  has_raw : Bool
  has_cor : Bool
deriving DecidableEq

/-- `SimTelTrackEvent.__init__`: derive the telescope id from the header type,
check it against the id-derived one, and record the two flag bits. -/
def SimTelTrackEvent.init (htype hid : Nat) : Except String TrackEvent :=
  if SimTelTrackEvent.id_to_telid hid ≠ SimTelTrackEvent.type_to_telid htype then
    .error "ValueError: Telescope IDs in type and header do not match"
  else
    .ok { telescope_id := SimTelTrackEvent.type_to_telid htype,
          has_raw := hid &&& 0x100 != 0,
          has_cor := hid &&& 0x200 != 0 }

/-- The field names of the numpy dtype built by
`SimTelTrackEvent.parse_data_field`. -/
def trackEventDt (obj : TrackEvent) : List String :=
  (if obj.has_raw then [("azimuth_raw" : String), "altitude_raw"] else []) ++
  (if obj.has_cor then [("azimuth_cor" : String), "altitude_cor"] else [])

/-- Read one little-endian 32-bit float (kept as its raw pattern) per field
name, in order; this is `read_array(self, count=1, dtype=dt)[0]` for a dtype
of f4 fields. -/
def readNamedF32s : List String → List Nat → Except String (List (String × Nat) × List Nat)
  | [], s => .ok ([], s)
  | n :: ns, s =>
    epBind (readUInt 4 s) fun v s1 =>
    epBind (readNamedF32s ns s1) fun fs s2 => .ok ((n, v) :: fs, s2)

/-- `SimTelTrackEvent.parse_data_field`. -/
def SimTelTrackEvent.parse_data_field (obj : TrackEvent) (s : List Nat) :
    Except String (List (String × Nat) × List Nat) :=
  readNamedF32s (trackEventDt obj) s

theorem readNamedF32s_names (ns : List String) :
    ∀ s out rest, readNamedF32s ns s = .ok (out, rest) → out.map Prod.fst = ns := by
  induction ns with
  | nil =>
    intro s out rest h
    simp only [readNamedF32s, Except.ok.injEq, Prod.mk.injEq] at h
    rw [← h.1]
    rfl
  | cons n ns ih =>
    intro s out rest h
    rw [readNamedF32s] at h
    cases hr : readUInt 4 s with
    | error e => rw [hr] at h; simp [epBind] at h
    | ok p =>
      obtain ⟨v, s1⟩ := p
      rw [hr, epBind_ok] at h
      cases hrs : readNamedF32s ns s1 with
      | error e => rw [hrs] at h; simp [epBind] at h
      | ok q =>
        obtain ⟨fs, s2⟩ := q
        rw [hrs, epBind_ok] at h
        simp only [Except.ok.injEq, Prod.mk.injEq] at h
        rw [← h.1]
        simp [ih s1 fs s2 hrs]

/-- Claim C4: for every telescope id `t ≤ 9999` and both bases, the type-code
encoding round-trips: `type_to_telid (telid_to_type t) = t`. -/
theorem telid_type_roundtrip (t : Nat) (_ht : t ≤ 9999) :
    SimTelTrackEvent.type_to_telid (SimTelTrackEvent.telid_to_type t) = t ∧
    SimTelTelEvent.type_to_telid (SimTelTelEvent.telid_to_type t) = t := by
  constructor
  · simp only [SimTelTrackEvent.type_to_telid, SimTelTrackEvent.telid_to_type]
    omega
  · simp only [SimTelTelEvent.type_to_telid, SimTelTelEvent.telid_to_type]
    omega

theorem telid_type_roundtrip_witness :
    1234 ≤ 9999 ∧
    (SimTelTrackEvent.type_to_telid (SimTelTrackEvent.telid_to_type 1234) = 1234 ∧
     SimTelTelEvent.type_to_telid (SimTelTelEvent.telid_to_type 1234) = 1234) :=
  ⟨by decide, telid_type_roundtrip 1234 (by decide)⟩

/-- Claim C3: `SimTelTrackEvent` construction fails with the
telescope-id-mismatch error exactly when `id_to_telid hid` differs from
`type_to_telid htype`; on success the object carries the common id. -/
theorem trackEvent_telid_check (htype hid : Nat) (_h2100 : 2100 ≤ htype) :
    (SimTelTrackEvent.init htype hid =
        .error "ValueError: Telescope IDs in type and header do not match"
      ↔ SimTelTrackEvent.id_to_telid hid ≠ SimTelTrackEvent.type_to_telid htype) ∧
    (∀ r, SimTelTrackEvent.init htype hid = .ok r →
      r.telescope_id = SimTelTrackEvent.type_to_telid htype ∧
      r.telescope_id = SimTelTrackEvent.id_to_telid hid) := by
  by_cases heq : SimTelTrackEvent.id_to_telid hid = SimTelTrackEvent.type_to_telid htype
  · refine ⟨by simp [SimTelTrackEvent.init, heq], ?_⟩
    intro r hr
    simp only [SimTelTrackEvent.init, heq, ne_eq, not_true_eq_false, if_false,
      Except.ok.injEq] at hr
    rw [← hr]
    exact ⟨rfl, heq.symm⟩
  · refine ⟨by simp [SimTelTrackEvent.init, heq], ?_⟩
    intro r hr
    simp [SimTelTrackEvent.init, heq] at hr

theorem trackEvent_telid_check_witness :
    2100 ≤ 2101 ∧
    ((SimTelTrackEvent.init 2101 769 =
        .error "ValueError: Telescope IDs in type and header do not match"
      ↔ SimTelTrackEvent.id_to_telid 769 ≠ SimTelTrackEvent.type_to_telid 2101) ∧
    (∀ r, SimTelTrackEvent.init 2101 769 = .ok r →
      r.telescope_id = SimTelTrackEvent.type_to_telid 2101 ∧
      r.telescope_id = SimTelTrackEvent.id_to_telid 769)) :=
  ⟨by decide, trackEvent_telid_check 2101 769 (by decide)⟩

/-! ### TelADCSamp (type 2013) header-flag decoding -/

/-- The state of a constructed `SimTelTelADCSamp` object. -/
structure TelADCSampObj where
  zero_sup_mode : Nat
  data_red_mode : Nat
  list_known : Bool
  telescope_id : Nat
deriving DecidableEq

/-- `SimTelTelADCSamp.__init__`: unpack the header id flag word and reject
the unsupported combinations. -/
def SimTelTelADCSamp.init (hid version : Nat) : Except String TelADCSampObj :=
  if (hid &&& 0x1f ≠ 0 ∧ version < 3) ∨ (hid >>> 5) &&& 0x1f ≠ 0 ∨
      ((hid >>> 10) &&& 0x01 != 0) = true then
    .error "NotImplementedError"
  else
    .ok { zero_sup_mode := hid &&& 0x1f,
          data_red_mode := (hid >>> 5) &&& 0x1f,
          list_known := (hid >>> 10) &&& 0x01 != 0,
          telescope_id := (hid >>> 12) &&& 0xffff }

/-- Claim C8: `SimTelTelADCSamp` construction fails exactly when
`zero_sup_mode ≠ 0` with `version < 3`, or `data_red_mode ≠ 0`, or
`list_known` is set; otherwise it succeeds recording
`telescope_id = (id >>> 12) &&& 0xffff`. -/
theorem telADCSamp_init_gate (hid version : Nat) :
    (SimTelTelADCSamp.init hid version = .error "NotImplementedError"
      ↔ ((hid &&& 0x1f ≠ 0 ∧ version < 3) ∨
         (hid >>> 5) &&& 0x1f ≠ 0 ∨ (hid >>> 10) &&& 0x01 = 1)) ∧
    (¬ ((hid &&& 0x1f ≠ 0 ∧ version < 3) ∨
         (hid >>> 5) &&& 0x1f ≠ 0 ∨ (hid >>> 10) &&& 0x01 = 1) →
      SimTelTelADCSamp.init hid version =
        .ok { zero_sup_mode := hid &&& 0x1f,
              data_red_mode := (hid >>> 5) &&& 0x1f,
              list_known := false,
              telescope_id := (hid >>> 12) &&& 0xffff }) := by
  have h01 : (hid >>> 10) &&& 0x01 = 0 ∨ (hid >>> 10) &&& 0x01 = 1 := by
    have h := Nat.and_one_is_mod (hid >>> 10)
    omega
  have hiff : ((hid >>> 10) &&& 0x01 != 0) = true ↔ (hid >>> 10) &&& 0x01 = 1 := by
    rcases h01 with h | h <;> simp [h]
  have hcond : ((hid &&& 0x1f ≠ 0 ∧ version < 3) ∨
        (hid >>> 5) &&& 0x1f ≠ 0 ∨ ((hid >>> 10) &&& 0x01 != 0) = true)
      ↔ ((hid &&& 0x1f ≠ 0 ∧ version < 3) ∨
        (hid >>> 5) &&& 0x1f ≠ 0 ∨ (hid >>> 10) &&& 0x01 = 1) :=
    or_congr Iff.rfl (or_congr Iff.rfl hiff)
  by_cases hC : (hid &&& 0x1f ≠ 0 ∧ version < 3) ∨
      (hid >>> 5) &&& 0x1f ≠ 0 ∨ (hid >>> 10) &&& 0x01 = 1
  · constructor
    · rw [SimTelTelADCSamp.init, if_pos (hcond.mpr hC)]
      exact ⟨fun _ => hC, fun _ => rfl⟩
    · intro hn
      exact absurd hC hn
  · constructor
    · rw [SimTelTelADCSamp.init, if_neg (fun h => hC (hcond.mp h))]
      constructor
      · intro h
        cases h
      · intro h
        exact absurd h hC
    · intro _
      rw [SimTelTelADCSamp.init, if_neg (fun h => hC (hcond.mp h))]
      have hb0 : ((hid >>> 10) &&& 0x01 != 0) = false := by
        rcases h01 with h | h
        · simp [h]
        · exact absurd (Or.inr (Or.inr h)) hC
      rw [hb0]

theorem epBind_assoc {α β γ : Type} (x : Except String (α × List Nat))
    (f : α → List Nat → Except String (β × List Nat))
    (g : β → List Nat → Except String (γ × List Nat)) :
    epBind (epBind x f) g = epBind x (fun a s => epBind (f a s) g) := by
  cases x with
  | error e => rfl
  | ok p =>
    obtain ⟨a, s⟩ := p
    rfl

theorem readNamedF32s_zip (ns : List String) (s : List Nat) :
    readNamedF32s ns s =
      epBind (readUIntArray 4 ns.length s) fun vs s2 => .ok (ns.zip vs, s2) := by
  induction ns generalizing s with
  | nil => rfl
  | cons n ns ih =>
    rw [readNamedF32s, List.length_cons, readUIntArray, epBind_assoc]
    refine congrArg _ (funext fun v => funext fun s1 => ?_)
    rw [ih s1, epBind_assoc, epBind_assoc]
    refine congrArg _ (funext fun vs => funext fun s2 => ?_)
    rw [epBind_ok, epBind_ok, List.zip_cons_cons]

/-- Claim C6: for every TrackEvent, the raw pair is present exactly when bit
0x100 of the header id is set and the cor pair exactly when bit 0x200 is set;
each present pair is two f32 reads in declared order, raw before cor.  In
particular header id 0x301 with type 2101 yields telescope id 1, both pairs,
and the four fields are read in order. -/
theorem trackEvent_pair_presence :
    (∀ htype hid r, SimTelTrackEvent.init htype hid = .ok r →
      (r.has_raw = true ↔ hid &&& 0x100 ≠ 0) ∧
      (r.has_cor = true ↔ hid &&& 0x200 ≠ 0) ∧
      trackEventDt r =
        (if hid &&& 0x100 ≠ 0 then [("azimuth_raw" : String), "altitude_raw"] else []) ++
        (if hid &&& 0x200 ≠ 0 then [("azimuth_cor" : String), "altitude_cor"] else []) ∧
      (∀ s, SimTelTrackEvent.parse_data_field r s =
        epBind (readUIntArray 4 (trackEventDt r).length s) fun vs s2 =>
          .ok ((trackEventDt r).zip vs, s2))) ∧
    SimTelTrackEvent.init 2101 769 = .ok ⟨1, true, true⟩ ∧
    SimTelTrackEvent.parse_data_field ⟨1, true, true⟩
        (u32enc 1 ++ u32enc 2 ++ u32enc 3 ++ u32enc 4) =
      .ok ([("azimuth_raw", 1), ("altitude_raw", 2),
            ("azimuth_cor", 3), ("altitude_cor", 4)], []) := by
  refine ⟨?_, ?_, ?_⟩
  · intro htype hid r h
    have hrec : r = { telescope_id := SimTelTrackEvent.type_to_telid htype,
                      has_raw := hid &&& 0x100 != 0,
                      has_cor := hid &&& 0x200 != 0 } := by
      rw [SimTelTrackEvent.init] at h
      by_cases hc : SimTelTrackEvent.id_to_telid hid ≠ SimTelTrackEvent.type_to_telid htype
      · rw [if_pos hc] at h
        cases h
      · rw [if_neg hc] at h
        exact (Except.ok.inj h).symm
    subst hrec
    refine ⟨by simp [bne_iff_ne], by simp [bne_iff_ne], ?_, ?_⟩
    · by_cases h1 : hid &&& 0x100 ≠ 0 <;> by_cases h2 : hid &&& 0x200 ≠ 0 <;>
        simp [trackEventDt, h1, h2]
    · intro s
      exact readNamedF32s_zip _ s
  · rfl
  · rfl

theorem trackEvent_pair_presence_witness :
    SimTelTrackEvent.init 2101 769 = .ok ⟨1, true, true⟩ ∧
    ((⟨1, true, true⟩ : TrackEvent).has_raw = true ↔ 769 &&& 0x100 ≠ 0) :=
  ⟨rfl, ((trackEvent_pair_presence.1 2101 769 ⟨1, true, true⟩ rfl).1)⟩

theorem telADCSamp_init_gate_witness :
    ¬ ((4096 &&& 0x1f ≠ 0 ∧ 3 < 3) ∨ (4096 >>> 5) &&& 0x1f ≠ 0 ∨
        (4096 >>> 10) &&& 0x01 = 1) ∧
    SimTelTelADCSamp.init 4096 3 =
      .ok { zero_sup_mode := 4096 &&& 0x1f,
            data_red_mode := (4096 >>> 5) &&& 0x1f,
            list_known := false,
            telescope_id := (4096 >>> 12) &&& 0xffff } :=
  ⟨by decide, (telADCSamp_init_gate 4096 3).2 (by decide)⟩

/-! ### CentralEvent (type 2009), version ≥ 2 trigger-time fragment -/

/-- Modelled from the spec: `bool_bit_from_pos` of `eventio/bits.py` — whether
bit `pos` of `value` is set. -/
def bool_bit_from_pos (value pos : Nat) : Bool := value.testBit pos

/-- The inner loop of `SimTelCentEvent.parse_data_field` for one telescope:
`for trigger in range(3)`, read one f32 time for each set mask bit. -/
def readMaskTimes : List Nat → Nat → List Nat →
    Except String (List (Nat × Nat) × List Nat)
  | [], _, s => .ok ([], s)
  | trg :: trgs, mask, s =>
    if bool_bit_from_pos mask trg then
      epBind (readUInt 4 s) fun t s1 =>
      epBind (readMaskTimes trgs mask s1) fun es s2 => .ok ((trg, t) :: es, s2)
    else readMaskTimes trgs mask s

/-- The `teltrg_time_by_type` loop of `SimTelCentEvent.parse_data_field`
(version ≥ 2), over `zip(triggered_telescopes, teltrg_type_mask)`: trigger
times are only written if more than one trigger is there, i.e. the mask is
not in {0b001, 0b010, 0b100}. -/
def teltrgTimeByType : List (Int × Nat) → List Nat →
    Except String (List (Int × List (Nat × Nat)) × List Nat)
  | [], s => .ok ([], s)
  | (tel, mask) :: rest, s =>
    if mask ∉ ([1, 2, 4] : List Nat) then
      epBind (readMaskTimes [0, 1, 2] mask s) fun es s1 =>
      epBind (teltrgTimeByType rest s1) fun m s2 => .ok ((tel, es) :: m, s2)
    else teltrgTimeByType rest s

/-- The version ≥ 2 fragment of `SimTelCentEvent.parse_data_field`: read one
u8 mask per triggered telescope, assert every mask is below 128, then run the
`teltrg_time_by_type` loop. -/
def centEventV2Fragment (triggered : List Int) (s : List Nat) :
    Except String ((List Nat × List (Int × List (Nat × Nat))) × List Nat) :=
  epBind (readBytes triggered.length s) fun bs s1 =>
    if (bs.map (· % 256)).all (· < 128) then
      epBind (teltrgTimeByType (triggered.zip (bs.map (· % 256))) s1) fun m s2 =>
        .ok ((bs.map (· % 256), m), s2)
    else .error "AssertionError: Unexpected trigger mask"

/-- The set bits among the three low bits of `mask`, in bit order 0, 1, 2. -/
def setLowBits (mask : Nat) : List Nat :=
  [0, 1, 2].filter (fun b => mask.testBit b)

/-- One f32 read per listed bit, pairing each bit with its time in order. -/
def readTimesForBits : List Nat → List Nat →
    Except String (List (Nat × Nat) × List Nat)
  | [], s => .ok ([], s)
  | b :: bs, s =>
    epBind (readUInt 4 s) fun t s1 =>
    epBind (readTimesForBits bs s1) fun es s2 => .ok ((b, t) :: es, s2)

/-- Stated from the spec's words (section 4.4, CentralEvent): for each
telescope whose mask is not in {0b001, 0b010, 0b100}, the entry maps each set
bit among the three low bits of the mask, preserving bit order 0 → 1 → 2, to
one f32 read from the payload. -/
def teltrgTimeByTypeSpec : List (Int × Nat) → List Nat →
    Except String (List (Int × List (Nat × Nat)) × List Nat)
  | [], s => .ok ([], s)
  | (tel, mask) :: rest, s =>
    if mask ∈ ([1, 2, 4] : List Nat) then teltrgTimeByTypeSpec rest s
    else
      epBind (readTimesForBits (setLowBits mask) s) fun es s1 =>
      epBind (teltrgTimeByTypeSpec rest s1) fun m s2 => .ok ((tel, es) :: m, s2)

theorem readMaskTimes_filter (trgs : List Nat) (mask : Nat) :
    ∀ s, readMaskTimes trgs mask s =
      readTimesForBits (trgs.filter (fun b => mask.testBit b)) s := by
  induction trgs with
  | nil => intro s; rfl
  | cons trg trgs ih =>
    intro s
    by_cases hb : mask.testBit trg
    · rw [readMaskTimes, if_pos (show bool_bit_from_pos mask trg = true from hb),
        List.filter_cons_of_pos (by simpa using hb), readTimesForBits]
      refine congrArg _ (funext fun t => funext fun s1 => ?_)
      rw [ih s1]
    · rw [readMaskTimes, if_neg (by simpa [bool_bit_from_pos] using hb),
        List.filter_cons_of_neg (by simpa using hb)]
      exact ih s

theorem teltrg_keys (pairs : List (Int × Nat)) :
    ∀ s res rest, teltrgTimeByType pairs s = .ok (res, rest) →
      res.map Prod.fst =
        (pairs.filter (fun p => p.2 ∉ ([1, 2, 4] : List Nat))).map Prod.fst := by
  induction pairs with
  | nil =>
    intro s res rest h
    simp only [teltrgTimeByType, Except.ok.injEq, Prod.mk.injEq] at h
    rw [← h.1]
    rfl
  | cons p pairs ih =>
    obtain ⟨tel, mask⟩ := p
    intro s res rest h
    by_cases hm : mask ∉ ([1, 2, 4] : List Nat)
    · rw [teltrgTimeByType, if_pos hm] at h
      cases hr : readMaskTimes [0, 1, 2] mask s with
      | error e => rw [hr] at h; cases h
      | ok q =>
        obtain ⟨es, s1⟩ := q
        rw [hr, epBind_ok] at h
        cases hrec : teltrgTimeByType pairs s1 with
        | error e => rw [hrec] at h; cases h
        | ok w =>
          obtain ⟨m, s2⟩ := w
          rw [hrec, epBind_ok] at h
          simp only [Except.ok.injEq, Prod.mk.injEq] at h
          rw [← h.1, List.filter_cons_of_pos (by simpa using hm)]
          simp only [List.map_cons]
          rw [ih s1 m s2 hrec]
    · rw [teltrgTimeByType, if_neg hm] at h
      rw [List.filter_cons_of_neg (by simpa using hm)]
      exact ih s res rest h

/-- Claim C5: the CentralEvent v2 trigger-time loop has an entry for a
triggered telescope exactly when its mask is not in {1, 2, 4}; the entry maps
each set bit among the three low mask bits, in bit order, to one f32 read
from the payload.  The scenario uses the raw f32 patterns of 1.5
(0x3FC00000) and 2.5 (0x40200000). -/
theorem centEvent_teltrg_times :
    (∀ pairs s, teltrgTimeByType pairs s = teltrgTimeByTypeSpec pairs s) ∧
    (∀ pairs s res rest, teltrgTimeByType pairs s = .ok (res, rest) →
      res.map Prod.fst =
        (pairs.filter (fun p => p.2 ∉ ([1, 2, 4] : List Nat))).map Prod.fst) ∧
    centEventV2Fragment [0]
        (3 :: (u32enc 0x3FC00000 ++ u32enc 0x40200000)) =
      .ok (([3], [(0, [(0, 0x3FC00000), (1, 0x40200000)])]), []) := by
  refine ⟨?_, teltrg_keys, rfl⟩
  intro pairs
  induction pairs with
  | nil => intro s; rfl
  | cons p pairs ih =>
    obtain ⟨tel, mask⟩ := p
    intro s
    by_cases hm : mask ∈ ([1, 2, 4] : List Nat)
    · rw [teltrgTimeByType, if_neg (not_not_intro hm), teltrgTimeByTypeSpec, if_pos hm]
      exact ih s
    · rw [teltrgTimeByType, if_pos hm, teltrgTimeByTypeSpec, if_neg hm,
        readMaskTimes_filter]
      refine congrArg _ (funext fun es => funext fun s1 => ?_)
      rw [ih s1]

/-! ### Version gate and PixelDisable (type 2005) -/

/-- `assert_exact_version`: raise unless the header version equals the single
supported version of the object type. -/
def assert_exact_version (given supported : Nat) : Except String Unit :=
  if given ≠ supported then .error "NotImplementedError: unsupported version"
  else .ok ()

/-- Run the continuation only when the version gate passed. -/
def withVersion {α : Type} (g : Except String Unit) (k : Except String α) :
    Except String α :=
  match g with
  | .error e => .error e
  | .ok () => k

@[simp] theorem withVersion_ok {α : Type} (k : Except String α) :
    withVersion (.ok ()) k = k := rfl

@[simp] theorem withVersion_error {α : Type} (e : String) (k : Except String α) :
    withVersion (.error e) k = .error e := rfl

theorem assert_exact_version_ne (given supported : Nat) (h : given ≠ supported) :
    assert_exact_version given supported =
      .error "NotImplementedError: unsupported version" := by
  rw [assert_exact_version, if_pos h]

theorem assert_exact_version_eq (v : Nat) : assert_exact_version v v = .ok () := by
  rw [assert_exact_version, if_neg (by simp)]

/-- The record returned by `SimTelPixelDisable.parse_data_field`. -/
structure PixelDisable where
  telescope_id : Nat
  num_trig_disabled : Int
  trigger_disabled : List Int
  num_HV_disabled : Int
  HV_disabled : List Int
deriving DecidableEq

/-- `SimTelPixelDisable.parse_data_field` (type 2005, version 0).  The second
array is read with `count=num_trig_disabled`, exactly as in the source.
Array counts are clamped at zero for negative values. -/
def SimTelPixelDisable.parse_data_field (telescope_id version : Nat)
    (s : List Nat) : Except String (PixelDisable × List Nat) :=
  withVersion (assert_exact_version version 0) <|
  epBind (readSInt 4 s) fun num_trig_disabled s1 =>
  epBind (readSIntArray 4 num_trig_disabled.toNat s1) fun trigger_disabled s2 =>
  epBind (readSInt 4 s2) fun num_HV_disabled s3 =>
  epBind (readSIntArray 4 num_trig_disabled.toNat s3) fun HV_disabled s4 =>
    .ok ({ telescope_id := telescope_id,
           num_trig_disabled := num_trig_disabled,
           trigger_disabled := trigger_disabled,
           num_HV_disabled := num_HV_disabled,
           HV_disabled := HV_disabled }, s4)

theorem readSIntArray4_enc (xs : List Int)
    (hx : ∀ x ∈ xs, -2147483648 ≤ x ∧ x < 2147483648) :
    ∀ r, readSIntArray 4 xs.length (encList i32enc xs ++ r) = .ok (xs, r) := by
  induction xs with
  | nil => intro r; rfl
  | cons x xs ih =>
    intro r
    rw [List.length_cons, encList, List.append_assoc, readSIntArray,
      readSInt4_enc x (hx x (by simp)).1 (hx x (by simp)).2, epBind_ok,
      ih (fun y hy => hx y (by simp [hy])) r, epBind_ok]

/-- Claim C10: PixelDisable reads the second array using the first count —
`HV_disabled` comes back with `num_trig_disabled` elements, whatever value
`num_HV_disabled` carries. -/
theorem pixelDisable_second_array_count (tid : Nat) (a b : Int)
    (xs ys : List Int) (rest : List Nat)
    (ha1 : 0 ≤ a) (ha2 : a < 2147483648)
    (hb1 : -2147483648 ≤ b) (hb2 : b < 2147483648)
    (hlx : xs.length = a.toNat) (hly : ys.length = a.toNat)
    (hx : ∀ x ∈ xs, -2147483648 ≤ x ∧ x < 2147483648)
    (hy : ∀ y ∈ ys, -2147483648 ≤ y ∧ y < 2147483648) :
    SimTelPixelDisable.parse_data_field tid 0
        (i32enc a ++ (encList i32enc xs ++ (i32enc b ++ (encList i32enc ys ++ rest)))) =
      .ok ({ telescope_id := tid,
             num_trig_disabled := a,
             trigger_disabled := xs,
             num_HV_disabled := b,
             HV_disabled := ys }, rest) ∧
    ys.length = a.toNat := by
  refine ⟨?_, hly⟩
  rw [SimTelPixelDisable.parse_data_field, assert_exact_version_eq, withVersion_ok,
    readSInt4_enc a (by omega) ha2, epBind_ok, ← hlx,
    readSIntArray4_enc xs hx, epBind_ok,
    readSInt4_enc b hb1 hb2, epBind_ok, hlx, ← hly,
    readSIntArray4_enc ys hy, epBind_ok]

theorem pixelDisable_second_array_count_witness :
    SimTelPixelDisable.parse_data_field 7 0
        (i32enc 1 ++ (encList i32enc [5] ++ (i32enc 3 ++ (encList i32enc [9] ++ [])))) =
      .ok ({ telescope_id := 7,
             num_trig_disabled := 1,
             trigger_disabled := [5],
             num_HV_disabled := 3,
             HV_disabled := [9] }, []) ∧
    ([9] : List Int).length = (1 : Int).toNat :=
  pixelDisable_second_array_count 7 1 3 [5] [9] []
    (by decide) (by decide) (by decide) (by decide) (by decide) (by decide)
    (by decide) (by decide)

/-! ### MCPeSum (type 2026) -/

/-- The record returned by `SimTelMCPeSum.parse_data_field` once the
per-telescope loop completes. -/
structure MCPeSum where
  event : Nat
  shower_num : Int
  num_tel : Int
  num_pe : List Int
  num_pixels : List Int
  pix_pe : List (List Int × List Int)
  photons : List Nat
  photons_atm : List Nat
  photons_atm_3_6 : List Nat
  photons_atm_qe : List Nat
  photons_atm_400 : List Nat
deriving DecidableEq

/-- The per-telescope loop of `SimTelMCPeSum.parse_data_field` as written in
the source: for each telescope with positive `n_pe` and `n_pixels` it reads
`non_empty`, `pixel_id` and `pe`, and then executes
`pix_pe.append(pixel_id, pe)` — a two-argument call of `list.append`, which
raises `TypeError` in Python.  Array counts are clamped at zero for negative
values. -/
def mcPeSumLoop : List (Int × Int) → List Nat →
    Except String (List (List Int × List Int) × List Nat)
  | [], s => .ok ([], s)
  | (n_pe, n_pixels) :: rest, s =>
    if n_pe ≤ 0 ∨ n_pixels ≤ 0 then mcPeSumLoop rest s
    else
      epBind (readSInt 2 s) fun non_empty s1 =>
      epBind (readSIntArray 2 non_empty.toNat s1) fun _pixel_id s2 =>
      epBind (readSIntArray 4 non_empty.toNat s2) fun _pe _s3 =>
        .error "TypeError: append() takes exactly one argument (2 given)"

/-- The same loop with the intended `pix_pe.append((pixel_id, pe))` — the
correction the spec prescribes for the reference bug. -/
def mcPeSumLoopIntended : List (Int × Int) → List Nat →
    Except String (List (List Int × List Int) × List Nat)
  | [], s => .ok ([], s)
  | (n_pe, n_pixels) :: rest, s =>
    if n_pe ≤ 0 ∨ n_pixels ≤ 0 then mcPeSumLoopIntended rest s
    else
      epBind (readSInt 2 s) fun non_empty s1 =>
      epBind (readSIntArray 2 non_empty.toNat s1) fun pixel_id s2 =>
      epBind (readSIntArray 4 non_empty.toNat s2) fun pe s3 =>
      epBind (mcPeSumLoopIntended rest s3) fun rest_pe s4 =>
        .ok ((pixel_id, pe) :: rest_pe, s4)

/-- `SimTelMCPeSum.parse_data_field` (type 2026, version 2), with the
per-telescope loop as in the source. -/
def SimTelMCPeSum.parse_data_field (event version : Nat) (s : List Nat) :
    Except String (MCPeSum × List Nat) :=
  withVersion (assert_exact_version version 2) <|
  epBind (readSInt 4 s) fun shower_num s1 =>
  epBind (readSInt 4 s1) fun num_tel s2 =>
  epBind (readSIntArray 4 num_tel.toNat s2) fun num_pe s3 =>
  epBind (readSIntArray 4 num_tel.toNat s3) fun num_pixels s4 =>
  epBind (mcPeSumLoop (num_pe.zip num_pixels) s4) fun pix_pe s5 =>
  epBind (readUIntArray 4 num_tel.toNat s5) fun photons s6 =>
  epBind (readUIntArray 4 num_tel.toNat s6) fun photons_atm s7 =>
  epBind (readUIntArray 4 num_tel.toNat s7) fun photons_atm_3_6 s8 =>
  epBind (readUIntArray 4 num_tel.toNat s8) fun photons_atm_qe s9 =>
  epBind (readUIntArray 4 num_tel.toNat s9) fun photons_atm_400 s10 =>
    .ok ({ event := event, shower_num := shower_num, num_tel := num_tel,
           num_pe := num_pe, num_pixels := num_pixels, pix_pe := pix_pe,
           photons := photons, photons_atm := photons_atm,
           photons_atm_3_6 := photons_atm_3_6,
           photons_atm_qe := photons_atm_qe,
           photons_atm_400 := photons_atm_400 }, s10)

/-- `SimTelMCPeSum.parse_data_field` with the intended append — the parser
the claim describes. -/
def SimTelMCPeSum.parse_data_field_intended (event version : Nat)
    (s : List Nat) : Except String (MCPeSum × List Nat) :=
  withVersion (assert_exact_version version 2) <|
  epBind (readSInt 4 s) fun shower_num s1 =>
  epBind (readSInt 4 s1) fun num_tel s2 =>
  epBind (readSIntArray 4 num_tel.toNat s2) fun num_pe s3 =>
  epBind (readSIntArray 4 num_tel.toNat s3) fun num_pixels s4 =>
  epBind (mcPeSumLoopIntended (num_pe.zip num_pixels) s4) fun pix_pe s5 =>
  epBind (readUIntArray 4 num_tel.toNat s5) fun photons s6 =>
  epBind (readUIntArray 4 num_tel.toNat s6) fun photons_atm s7 =>
  epBind (readUIntArray 4 num_tel.toNat s7) fun photons_atm_3_6 s8 =>
  epBind (readUIntArray 4 num_tel.toNat s8) fun photons_atm_qe s9 =>
  epBind (readUIntArray 4 num_tel.toNat s9) fun photons_atm_400 s10 =>
    .ok ({ event := event, shower_num := shower_num, num_tel := num_tel,
           num_pe := num_pe, num_pixels := num_pixels, pix_pe := pix_pe,
           photons := photons, photons_atm := photons_atm,
           photons_atm_3_6 := photons_atm_3_6,
           photons_atm_qe := photons_atm_qe,
           photons_atm_400 := photons_atm_400 }, s10)

/-- A well-formed MCPeSum v2 payload: `shower_num = 1`, one telescope with
`num_pe = [1]` and `num_pixels = [1]`, `non_empty = 1`, `pixel_id = [0]`,
`pe = [5]`, and the five trailing one-element photon arrays. -/
def mcPeSumStream : List Nat :=
  i32enc 1 ++ i32enc 1 ++ encList i32enc [1] ++ encList i32enc [1] ++
  i16enc 1 ++ encList i16enc [0] ++ encList i32enc [5] ++
  u32enc 0 ++ u32enc 0 ++ u32enc 0 ++ u32enc 0 ++ u32enc 0

/-- Claim C2 (code bug): on a payload with a telescope whose `num_pe` and
`num_pixels` entries are both positive, the source's
`pix_pe.append(pixel_id, pe)` raises `TypeError` instead of collecting the
pair; with the intended `append((pixel_id, pe))` the very same payload
parses into `pix_pe = [(pixel_id, pe)]`. -/
theorem mcPeSum_append_bug :
    SimTelMCPeSum.parse_data_field 0 2 mcPeSumStream =
      .error "TypeError: append() takes exactly one argument (2 given)" ∧
    SimTelMCPeSum.parse_data_field_intended 0 2 mcPeSumStream =
      .ok ({ event := 0, shower_num := 1, num_tel := 1,
             num_pe := [1], num_pixels := [1],
             pix_pe := [([0], [5])],
             photons := [0], photons_atm := [0], photons_atm_3_6 := [0],
             photons_atm_qe := [0], photons_atm_400 := [0] }, []) := by
  constructor
  · rfl
  · rfl

/-! ### TelADCSamp (type 2013) sample parsing -/

/-- Python `range(a, b)`: the integers from `a` up to but excluding `b`. -/
def pyRange (a b : Int) : List Int :=
  (List.range (b - a).toNat).map (fun i => a + i)

/-- The pixel-range list reader of
`SimTelTelADCSamp._parse_in_zero_suppressed_mode`: a scount `start` per
entry; negative `start` yields the single-pixel pair
`(-start - 1, -start - 1)`, otherwise a second scount gives the pair
`(start, end)`. -/
def readPixelRanges : Nat → List Nat → Except String (List (Int × Int) × List Nat)
  | 0, s => .ok ([], s)
  | k + 1, s =>
    epBind (read_utf8_like_signed_int s) fun start s1 =>
    if start < 0 then
      epBind (readPixelRanges k s1) fun rs s2 =>
        .ok ((-start - 1, -start - 1) :: rs, s2)
    else
      epBind (read_utf8_like_signed_int s1) fun last s2 =>
      epBind (readPixelRanges k s2) fun rs s3 => .ok ((start, last) :: rs, s3)

/-- The `u16[num_gains][num_pixels][num_samples]` tensor, as nested lists. -/
abbrev ADCTensor := List (List (List Nat))

/-- The zero-initialised tensor `np.zeros((num_gains, num_pixels, num_samples))`. -/
def zerosTensor (num_gains num_pixels num_samples : Nat) : ADCTensor :=
  List.replicate num_gains (List.replicate num_pixels (List.replicate num_samples 0))

/-- `adc_samples[i_gain, i_pix, :] = row`, failing like numpy on an index
outside `[0, num_pixels)`. -/
def setPixelRow (num_pixels : Nat) (t : ADCTensor) (i_gain : Nat) (i_pix : Int)
    (row : List Nat) : Except String ADCTensor :=
  if 0 ≤ i_pix ∧ i_pix < (num_pixels : Int) then
    .ok (t.set i_gain ((t.getD i_gain []).set i_pix.toNat row))
  else .error "IndexError"

/-- Fill one differential vector of `num_samples` samples per listed pixel. -/
def zsFillPixels (num_pixels num_samples i_gain : Nat) :
    List Int → ADCTensor → List Nat → Except String (ADCTensor × List Nat)
  | [], t, s => .ok (t, s)
  | p :: ps, t, s =>
    epBind (readDiffVector num_samples 0 s) fun row s1 =>
    match setPixelRow num_pixels t i_gain p row with
    | .error e => .error e
    | .ok t1 => zsFillPixels num_pixels num_samples i_gain ps t1 s1

/-- The range loop of the source: `for i_pix in range(*pixel_range)` —
Python `range(start, end)`, which excludes `end`. -/
def zsFillRanges (num_pixels num_samples i_gain : Nat) :
    List (Int × Int) → ADCTensor → List Nat → Except String (ADCTensor × List Nat)
  | [], t, s => .ok (t, s)
  | r :: rs, t, s =>
    epBind (zsFillPixels num_pixels num_samples i_gain (pyRange r.1 r.2) t s)
      fun t1 s1 => zsFillRanges num_pixels num_samples i_gain rs t1 s1

/-- The gain loop of the source. -/
def zsFillGains (num_pixels num_samples : Nat) (ranges : List (Int × Int)) :
    List Nat → ADCTensor → List Nat → Except String (ADCTensor × List Nat)
  | [], t, s => .ok (t, s)
  | g :: gs, t, s =>
    epBind (zsFillRanges num_pixels num_samples g ranges t s) fun t1 s1 =>
    zsFillGains num_pixels num_samples ranges gs t1 s1

/-- `SimTelTelADCSamp._parse_in_zero_suppressed_mode`, translated from the
source. -/
def SimTelTelADCSamp.parse_in_zero_suppressed_mode
    (num_gains num_pixels num_samples : Nat) (s : List Nat) :
    Except String (ADCTensor × List Nat) :=
  epBind (read_utf8_like_signed_int s) fun list_size s1 =>
  epBind (readPixelRanges list_size.toNat s1) fun pixel_ranges s2 =>
  zsFillGains num_pixels num_samples pixel_ranges (List.range num_gains)
    (zerosTensor num_gains num_pixels num_samples) s2

/-- The range loop as the spec words it for claim C1: each range covers its
pixels inclusive of both endpoints. -/
def zsFillRangesInclusive (num_pixels num_samples i_gain : Nat) :
    List (Int × Int) → ADCTensor → List Nat → Except String (ADCTensor × List Nat)
  | [], t, s => .ok (t, s)
  | r :: rs, t, s =>
    epBind (zsFillPixels num_pixels num_samples i_gain (pyRange r.1 (r.2 + 1)) t s)
      fun t1 s1 => zsFillRangesInclusive num_pixels num_samples i_gain rs t1 s1

/-- The gain loop over inclusive ranges. -/
def zsFillGainsInclusive (num_pixels num_samples : Nat) (ranges : List (Int × Int)) :
    List Nat → ADCTensor → List Nat → Except String (ADCTensor × List Nat)
  | [], t, s => .ok (t, s)
  | g :: gs, t, s =>
    epBind (zsFillRangesInclusive num_pixels num_samples g ranges t s) fun t1 s1 =>
    zsFillGainsInclusive num_pixels num_samples ranges gs t1 s1

/-- Stated from the spec's words (section 4.4 TelADCSamp, claim C1):
zero-suppressed parsing fills one differential vector per gain and per pixel
in each range, inclusive of both endpoints. -/
def parse_in_zero_suppressed_mode_inclusive
    (num_gains num_pixels num_samples : Nat) (s : List Nat) :
    Except String (ADCTensor × List Nat) :=
  epBind (read_utf8_like_signed_int s) fun list_size s1 =>
  epBind (readPixelRanges list_size.toNat s1) fun pixel_ranges s2 =>
  zsFillGainsInclusive num_pixels num_samples pixel_ranges (List.range num_gains)
    (zerosTensor num_gains num_pixels num_samples) s2

/-- `SimTelTelADCSamp._parse_in_not_zero_suppressed_mode`: every pixel of
every gain gets one differential vector. -/
def nzsFillGains (num_pixels num_samples : Nat) :
    List Nat → ADCTensor → List Nat → Except String (ADCTensor × List Nat)
  | [], t, s => .ok (t, s)
  | g :: gs, t, s =>
    epBind (zsFillPixels num_pixels num_samples g (pyRange 0 num_pixels) t s)
      fun t1 s1 => nzsFillGains num_pixels num_samples gs t1 s1

/-- `SimTelTelADCSamp._parse_in_not_zero_suppressed_mode`, translated from
the source. -/
def SimTelTelADCSamp.parse_in_not_zero_suppressed_mode
    (num_gains num_pixels num_samples : Nat) (s : List Nat) :
    Except String (ADCTensor × List Nat) :=
  nzsFillGains num_pixels num_samples (List.range num_gains)
    (zerosTensor num_gains num_pixels num_samples) s

/-- `SimTelTelADCSamp.parse_data_field` (type 2013, version 3): version gate,
the three dimension reads, then the mode dispatch on the `zero_sup_mode`
unpacked from the header id at construction.  Negative dimensions (impossible
in a valid stream) fail like `np.zeros` would. -/
def SimTelTelADCSamp.parse_data_field (zero_sup_mode version : Nat)
    (s : List Nat) : Except String (ADCTensor × List Nat) :=
  withVersion (assert_exact_version version 3) <|
  epBind (readSInt 4 s) fun num_pixels s1 =>
  epBind (readSInt 2 s1) fun num_gains s2 =>
  epBind (readSInt 2 s2) fun num_samples s3 =>
  if num_pixels < 0 ∨ num_gains < 0 ∨ num_samples < 0 then
    .error "ValueError: negative dimensions are not allowed"
  else if zero_sup_mode ≠ 0 then
    SimTelTelADCSamp.parse_in_zero_suppressed_mode
      num_gains.toNat num_pixels.toNat num_samples.toNat s3
  else
    SimTelTelADCSamp.parse_in_not_zero_suppressed_mode
      num_gains.toNat num_pixels.toNat num_samples.toNat s3

/-- Claim C1 (code bug): the source iterates `range(*pixel_range)`, which
excludes the end pixel of every range and covers no pixel at all for a
single-pixel range `(x, x)`; the spec demands both endpoints inclusive.  On a
payload with `num_gains = 1`, `num_pixels = 2`, `num_samples = 1`, the range
`(0, 1)` and differential vectors `[5]` and `[7]`, the source fills only
pixel 0 and leaves the second vector unread; inclusive parsing fills both
pixels and consumes the payload.  On a single-pixel payload (range `(0, 0)`
encoded as `start = -1`) the source fills nothing at all. -/
theorem telADCSamp_zero_sup_range_bug :
    SimTelTelADCSamp.parse_in_zero_suppressed_mode 1 2 1 [2, 0, 2, 10, 14] =
      .ok ([[[5], [0]]], [14]) ∧
    parse_in_zero_suppressed_mode_inclusive 1 2 1 [2, 0, 2, 10, 14] =
      .ok ([[[5], [7]]], []) ∧
    SimTelTelADCSamp.parse_in_zero_suppressed_mode 1 1 1 [2, 1, 10] =
      .ok ([[[0]]], [10]) ∧
    parse_in_zero_suppressed_mode_inclusive 1 1 1 [2, 1, 10] =
      .ok ([[[5]]], []) :=
  ⟨rfl, rfl, rfl, rfl⟩

/-! ### MCRunHeader (type 2001) and the exact-version gates -/

/-- The record returned by `SimTelMCRunHeader.parse_data_field`: 32-bit
signed integers, raw 32-bit float patterns, and two-element float arrays, in
the declared order. -/
structure MCRunHeader where
  shower_prog_id : Int
  shower_prog_vers : Int
  shower_prog_start : Int
  detector_prog_id : Int
  detector_prog_vers : Int
  detector_prog_start : Int
  obsheight : Nat
  num_showers : Int
  num_use : Int
  core_pos_mode : Int
  core_range : List Nat
  alt_range : List Nat
  az_range : List Nat
  diffuse : Int
  viewcone : List Nat
  E_range : List Nat
  spectral_index : Nat
  B_total : Nat
  B_inclination : Nat
  B_declination : Nat
  injection_height : Nat
  atmosphere : Int
  corsika_iact_options : Int
  corsika_low_E_model : Int
  corsika_high_E_model : Int
  corsika_bunchsize : Nat
  corsika_wlen_min : Nat
  corsika_wlen_max : Nat
  corsika_low_E_detail : Int
  corsika_high_E_detail : Int
deriving DecidableEq

/-- `SimTelMCRunHeader.parse_data_field` (type 2001, version 4). -/
def SimTelMCRunHeader.parse_data_field (version : Nat) (s : List Nat) :
    Except String (MCRunHeader × List Nat) :=
  withVersion (assert_exact_version version 4) <|
  epBind (readSInt 4 s) fun shower_prog_id s1 =>
  epBind (readSInt 4 s1) fun shower_prog_vers s2 =>
  epBind (readSInt 4 s2) fun shower_prog_start s3 =>
  epBind (readSInt 4 s3) fun detector_prog_id s4 =>
  epBind (readSInt 4 s4) fun detector_prog_vers s5 =>
  epBind (readSInt 4 s5) fun detector_prog_start s6 =>
  epBind (readUInt 4 s6) fun obsheight s7 =>
  epBind (readSInt 4 s7) fun num_showers s8 =>
  epBind (readSInt 4 s8) fun num_use s9 =>
  epBind (readSInt 4 s9) fun core_pos_mode s10 =>
  epBind (readUIntArray 4 2 s10) fun core_range s11 =>
  epBind (readUIntArray 4 2 s11) fun alt_range s12 =>
  epBind (readUIntArray 4 2 s12) fun az_range s13 =>
  epBind (readSInt 4 s13) fun diffuse s14 =>
  epBind (readUIntArray 4 2 s14) fun viewcone s15 =>
  epBind (readUIntArray 4 2 s15) fun E_range s16 =>
  epBind (readUInt 4 s16) fun spectral_index s17 =>
  epBind (readUInt 4 s17) fun B_total s18 =>
  epBind (readUInt 4 s18) fun B_inclination s19 =>
  epBind (readUInt 4 s19) fun B_declination s20 =>
  epBind (readUInt 4 s20) fun injection_height s21 =>
  epBind (readSInt 4 s21) fun atmosphere s22 =>
  epBind (readSInt 4 s22) fun corsika_iact_options s23 =>
  epBind (readSInt 4 s23) fun corsika_low_E_model s24 =>
  epBind (readSInt 4 s24) fun corsika_high_E_model s25 =>
  epBind (readUInt 4 s25) fun corsika_bunchsize s26 =>
  epBind (readUInt 4 s26) fun corsika_wlen_min s27 =>
  epBind (readUInt 4 s27) fun corsika_wlen_max s28 =>
  epBind (readSInt 4 s28) fun corsika_low_E_detail s29 =>
  epBind (readSInt 4 s29) fun corsika_high_E_detail s30 =>
    .ok ({ shower_prog_id := shower_prog_id,
           shower_prog_vers := shower_prog_vers,
           shower_prog_start := shower_prog_start,
           detector_prog_id := detector_prog_id,
           detector_prog_vers := detector_prog_vers,
           detector_prog_start := detector_prog_start,
           obsheight := obsheight,
           num_showers := num_showers,
           num_use := num_use,
           core_pos_mode := core_pos_mode,
           core_range := core_range,
           alt_range := alt_range,
           az_range := az_range,
           diffuse := diffuse,
           viewcone := viewcone,
           E_range := E_range,
           spectral_index := spectral_index,
           B_total := B_total,
           B_inclination := B_inclination,
           B_declination := B_declination,
           injection_height := injection_height,
           atmosphere := atmosphere,
           corsika_iact_options := corsika_iact_options,
           corsika_low_E_model := corsika_low_E_model,
           corsika_high_E_model := corsika_high_E_model,
           corsika_bunchsize := corsika_bunchsize,
           corsika_wlen_min := corsika_wlen_min,
           corsika_wlen_max := corsika_wlen_max,
           corsika_low_E_detail := corsika_low_E_detail,
           corsika_high_E_detail := corsika_high_E_detail }, s30)

/-- The exact-version gate table of `objects.py`: every type with a single
supported version calls `assert_exact_version` with that version at the top
of its `parse_data_field`. -/
def exactVersionGate : Nat → Option Nat
  | 2001 => some 4
  | 2003 => some 1
  | 2005 => some 0
  | 2006 => some 0
  | 2007 => some 0
  | 2013 => some 3
  | 2014 => some 5
  | 2015 => some 1
  | 2021 => some 1
  | 2022 => some 0
  | 2023 => some 2
  | 2026 => some 2
  | 2027 => some 0
  | _ => none

/-- Claim C9: for every single-version type the gate passes exactly on the
listed version, and the fully modelled parsers (2001, 2005, 2013, 2026) fail
with the unsupported-version error on any other header version, whatever the
payload holds. -/
theorem exact_version_gates :
    (∀ ty sv, exactVersionGate ty = some sv →
      ∀ v, (assert_exact_version v sv = .ok () ↔ v = sv)) ∧
    (∀ v s, v ≠ 4 → SimTelMCRunHeader.parse_data_field v s =
      .error "NotImplementedError: unsupported version") ∧
    (∀ v tid s, v ≠ 0 → SimTelPixelDisable.parse_data_field tid v s =
      .error "NotImplementedError: unsupported version") ∧
    (∀ v z s, v ≠ 3 → SimTelTelADCSamp.parse_data_field z v s =
      .error "NotImplementedError: unsupported version") ∧
    (∀ v e s, v ≠ 2 → SimTelMCPeSum.parse_data_field e v s =
      .error "NotImplementedError: unsupported version") := by
  refine ⟨?_, ?_, ?_, ?_, ?_⟩
  · intro ty sv _ v
    constructor
    · intro h
      by_contra hne
      rw [assert_exact_version_ne v sv hne] at h
      cases h
    · intro h
      subst h
      exact assert_exact_version_eq v
  · intro v s h
    rw [SimTelMCRunHeader.parse_data_field, assert_exact_version_ne v 4 h,
      withVersion_error]
  · intro v tid s h
    rw [SimTelPixelDisable.parse_data_field, assert_exact_version_ne v 0 h,
      withVersion_error]
  · intro v z s h
    rw [SimTelTelADCSamp.parse_data_field, assert_exact_version_ne v 3 h,
      withVersion_error]
  · intro v e s h
    rw [SimTelMCPeSum.parse_data_field, assert_exact_version_ne v 2 h,
      withVersion_error]

theorem exact_version_gates_witness :
    (assert_exact_version 4 4 = .ok () ↔ 4 = 4) ∧
    (5 ≠ 4 ∧ SimTelMCRunHeader.parse_data_field 5 [] =
      .error "NotImplementedError: unsupported version") :=
  ⟨exact_version_gates.1 2001 4 rfl 4,
   by decide, exact_version_gates.2.1 5 [] (by decide)⟩

/-! ### TelEventHeader (type 2011) -/

/-- The record returned by `SimTelTelEvtHead.parse_data_field`; the
flag-gated fields are optional. -/
structure TelEvtHead where
  loc_count : Int
  glob_count : Int
  cpu_time : Nat × Nat
  gps_time : Nat × Nat
  trg_source : Int
  list_trgsect : Option (List Int)
  time_trgsect : Option (List Nat)
  num_phys_addr : Option Int
  phys_addr : Option (List Int)
deriving DecidableEq

/-- Python bit test `t & (2 ^ k) != 0` on a signed integer, via the
floor-division characterization of two's-complement bits. -/
def intTestBit (t : Int) (k : Nat) : Bool := (t / ((2 : Int) ^ k)) % 2 == 1

/-- A scount array: `[read_utf8_like_signed_int(self) for _ in range(n)]`. -/
def readScountArray : Nat → List Nat → Except String (List Int × List Nat)
  | 0, s => .ok ([], s)
  | n + 1, s =>
    epBind (read_utf8_like_signed_int s) fun v s1 =>
    epBind (readScountArray n s1) fun vs s2 => .ok (v :: vs, s2)

/-- The trigger-sector list read of `SimTelTelEvtHead.parse_data_field`.
Version ≤ 1 reads an i16 length followed by an i16 array (this branch is
modelled from the spec's words in section 4.4, the `read_array` helper being
outside the sources at hand).  From version 2 the source executes
`num_list_trgsect, = read_utf8_like_signed_int(self)`: the scount decoder
returns a plain integer — every other call site in `objects.py` uses its
result unwrapped — so the one-element tuple unpack raises `TypeError` right
after the scount bytes are consumed. -/
def readTrgsectList (version : Nat) (s : List Nat) :
    Except String ((Int × List Int) × List Nat) :=
  if version ≤ 1 then
    epBind (readSInt 2 s) fun n s1 =>
    epBind (readSIntArray 2 n.toNat s1) fun xs s2 => .ok ((n, xs), s2)
  else
    epBind (read_utf8_like_signed_int s) fun _n _s1 =>
      .error "TypeError: cannot unpack non-iterable int object"

/-- The trigger-sector list read with the intended plain assignment
`num_list_trgsect = read_utf8_like_signed_int(self)` (the unpacking comma
dropped): from version 2 a scount length followed by that many scounts.  A
negative length yields an empty list, as `range` would. -/
def readTrgsectListIntended (version : Nat) (s : List Nat) :
    Except String ((Int × List Int) × List Nat) :=
  if version ≤ 1 then
    epBind (readSInt 2 s) fun n s1 =>
    epBind (readSIntArray 2 n.toNat s1) fun xs s2 => .ok ((n, xs), s2)
  else
    epBind (read_utf8_like_signed_int s) fun n s1 =>
    epBind (readScountArray n.toNat s1) fun xs s2 => .ok ((n, xs), s2)

/-- The physical-address list read of `SimTelTelEvtHead.parse_data_field`:
the same version-gated encoding, but here the version ≥ 2 length is assigned
without unpacking (`event_head['num_phys_addr'] =
read_utf8_like_signed_int(self)`), so the read succeeds.  The version ≤ 1
branch is modelled from the spec's words in section 4.4. -/
def readPhysAddrList (version : Nat) (s : List Nat) :
    Except String ((Int × List Int) × List Nat) :=
  if version ≤ 1 then
    epBind (readSInt 2 s) fun n s1 =>
    epBind (readSIntArray 2 n.toNat s1) fun xs s2 => .ok ((n, xs), s2)
  else
    epBind (read_utf8_like_signed_int s) fun n s1 =>
    epBind (readScountArray n.toNat s1) fun xs s2 => .ok ((n, xs), s2)

/-- `SimTelTelEvtHead.parse_data_field` (type 2011): counters, two
timestamps, the flag word `t`, then the flag-gated trigger-sector list with
optional times, and the flag-gated physical-address list. -/
def SimTelTelEvtHead.parse_data_field (version : Nat) (s : List Nat) :
    Except String (TelEvtHead × List Nat) :=
  epBind (readSInt 4 s) fun loc_count s1 =>
  epBind (readSInt 4 s1) fun glob_count s2 =>
  epBind (read_time s2) fun cpu_time s3 =>
  epBind (read_time s3) fun gps_time s4 =>
  epBind (readSInt 2 s4) fun t s5 =>
  epBind
    (if intTestBit t 8 then
      epBind (readTrgsectList version s5) fun nl s6 =>
      if 1 ≤ version ∧ intTestBit t 10 then
        epBind (readUIntArray 4 nl.1.toNat s6) fun ts s7 =>
          .ok (((some nl.2 : Option (List Int)), (some ts : Option (List Nat))), s7)
      else .ok ((some nl.2, (none : Option (List Nat))), s6)
    else .ok (((none : Option (List Int)), (none : Option (List Nat))), s5))
    fun trg s6 =>
  epBind
    (if intTestBit t 9 then
      epBind (readPhysAddrList version s6) fun pl s7 =>
        .ok (((some pl.1 : Option Int), (some pl.2 : Option (List Int))), s7)
    else .ok (((none : Option Int), (none : Option (List Int))), s6))
    fun pa s7 =>
  .ok ({ loc_count := loc_count, glob_count := glob_count,
         cpu_time := cpu_time, gps_time := gps_time,
         trg_source := t % 256,
         list_trgsect := trg.1, time_trgsect := trg.2,
         num_phys_addr := pa.1, phys_addr := pa.2 }, s7)

/-- `SimTelTelEvtHead.parse_data_field` with the intended trigger-sector
length assignment — the parser the claim describes. -/
def SimTelTelEvtHead.parse_data_field_intended (version : Nat) (s : List Nat) :
    Except String (TelEvtHead × List Nat) :=
  epBind (readSInt 4 s) fun loc_count s1 =>
  epBind (readSInt 4 s1) fun glob_count s2 =>
  epBind (read_time s2) fun cpu_time s3 =>
  epBind (read_time s3) fun gps_time s4 =>
  epBind (readSInt 2 s4) fun t s5 =>
  epBind
    (if intTestBit t 8 then
      epBind (readTrgsectListIntended version s5) fun nl s6 =>
      if 1 ≤ version ∧ intTestBit t 10 then
        epBind (readUIntArray 4 nl.1.toNat s6) fun ts s7 =>
          .ok (((some nl.2 : Option (List Int)), (some ts : Option (List Nat))), s7)
      else .ok ((some nl.2, (none : Option (List Nat))), s6)
    else .ok (((none : Option (List Int)), (none : Option (List Nat))), s5))
    fun trg s6 =>
  epBind
    (if intTestBit t 9 then
      epBind (readPhysAddrList version s6) fun pl s7 =>
        .ok (((some pl.1 : Option Int), (some pl.2 : Option (List Int))), s7)
    else .ok (((none : Option Int), (none : Option (List Int))), s6))
    fun pa s7 =>
  .ok ({ loc_count := loc_count, glob_count := glob_count,
         cpu_time := cpu_time, gps_time := gps_time,
         trg_source := t % 256,
         list_trgsect := trg.1, time_trgsect := trg.2,
         num_phys_addr := pa.1, phys_addr := pa.2 }, s7)

theorem read_time_enc (a b : Nat) (ha : a < 4294967296) (hb : b < 4294967296)
    (r : List Nat) :
    read_time (u32enc a ++ (u32enc b ++ r)) = .ok ((a, b), r) := by
  rw [read_time, readUInt4_enc a ha, epBind_ok, readUInt4_enc b hb, epBind_ok]

theorem readScountArray_enc (vs : List Int) :
    ∀ r, readScountArray vs.length (encList scountEnc vs ++ r) = .ok (vs, r) := by
  induction vs with
  | nil => intro r; rfl
  | cons v vs ih =>
    intro r
    rw [List.length_cons, encList, List.append_assoc, readScountArray,
      readScount_enc, epBind_ok, ih r, epBind_ok]

theorem readUIntArray4_enc (ts : List Nat) (ht : ∀ x ∈ ts, x < 4294967296) :
    ∀ r, readUIntArray 4 ts.length (encList u32enc ts ++ r) = .ok (ts, r) := by
  induction ts with
  | nil => intro r; rfl
  | cons x ts ih =>
    intro r
    rw [List.length_cons, encList, List.append_assoc, readUIntArray,
      readUInt4_enc x (ht x (by simp)), epBind_ok,
      ih (fun y hy => ht y (by simp [hy])) r, epBind_ok]

theorem readTrgsectListIntended2_enc (vs : List Int) (r : List Nat) :
    readTrgsectListIntended 2
        (scountEnc (vs.length : Int) ++ (encList scountEnc vs ++ r)) =
      .ok (((vs.length : Int), vs), r) := by
  rw [readTrgsectListIntended, if_neg (by omega), readScount_enc, epBind_ok]
  rw [show ((vs.length : Int)).toNat = vs.length from Int.toNat_natCast vs.length]
  rw [readScountArray_enc vs r, epBind_ok]

/-- The intended parser fulfils the property of claim C7: a version-2
TelEventHeader with flag bit 0x100 set reads the trigger-sector list as a
scount length followed by that many scounts and returns it as
`list_trgsect`; with bit 0x400 also set it then reads `time_trgsect` as that
many f32 values. -/
theorem telEvtHeadIntended_trgsect (loc glob : Int) (c1 c2 g1 g2 : Nat) (t : Int)
    (vs : List Int) (ts : List Nat) (rest : List Nat)
    (hloc1 : -2147483648 ≤ loc) (hloc2 : loc < 2147483648)
    (hglob1 : -2147483648 ≤ glob) (hglob2 : glob < 2147483648)
    (hc1 : c1 < 4294967296) (hc2 : c2 < 4294967296)
    (hg1 : g1 < 4294967296) (hg2 : g2 < 4294967296)
    (ht1 : -32768 ≤ t) (ht2 : t < 32768)
    (hbit8 : intTestBit t 8 = true) (hbit9 : intTestBit t 9 = false)
    (hlen : ts.length = vs.length)
    (hts : ∀ x ∈ ts, x < 4294967296) :
    SimTelTelEvtHead.parse_data_field_intended 2
      (i32enc loc ++ (i32enc glob ++ (u32enc c1 ++ (u32enc c2 ++
        (u32enc g1 ++ (u32enc g2 ++ (i16enc t ++ (scountEnc (vs.length : Int) ++
          (encList scountEnc vs ++
            ((if intTestBit t 10 then encList u32enc ts else []) ++ rest)))))))))) =
      .ok ({ loc_count := loc, glob_count := glob,
             cpu_time := (c1, c2), gps_time := (g1, g2),
             trg_source := t % 256,
             list_trgsect := some vs,
             time_trgsect := if intTestBit t 10 then some ts else none,
             num_phys_addr := none, phys_addr := none }, rest) := by
  rw [SimTelTelEvtHead.parse_data_field_intended,
    readSInt4_enc loc hloc1 hloc2, epBind_ok,
    readSInt4_enc glob hglob1 hglob2, epBind_ok,
    read_time_enc c1 c2 hc1 hc2, epBind_ok,
    read_time_enc g1 g2 hg1 hg2, epBind_ok,
    readSInt2_enc t ht1 ht2, epBind_ok,
    if_pos hbit8, readTrgsectListIntended2_enc vs, epBind_ok]
  cases h10 : intTestBit t 10 with
  | true =>
    rw [if_pos (show (1 : Nat) ≤ 2 ∧ true = true from ⟨by omega, rfl⟩)]
    have harr : readUIntArray 4 ((vs.length : Int), vs).1.toNat
        ((if true = true then encList u32enc ts else []) ++ rest) = .ok (ts, rest) := by
      have h1 : ((vs.length : Int), vs).1.toNat = ts.length := by
        simp [hlen]
      rw [h1, show (if true = true then encList u32enc ts else []) =
        encList u32enc ts from rfl, readUIntArray4_enc ts hts rest]
    rw [harr, epBind_ok, epBind_ok, hbit9, if_neg Bool.false_ne_true, epBind_ok]
    rfl
  | false =>
    rw [if_neg (show ¬((1 : Nat) ≤ 2 ∧ false = true) from
        fun hc => Bool.false_ne_true hc.2),
      epBind_ok, hbit9, if_neg Bool.false_ne_true, epBind_ok]
    rfl

/-- A version-2 TelEventHeader payload: `loc_count = 7`, `glob_count = 9`,
`cpu_time = (11, 12)`, `gps_time = (13, 14)`, flag word `t = 0x500` (the
trigger-sector bit 0x100 and the trigger-time bit 0x400 set, the
physical-address bit 0x200 clear), scount list length 2, scounts `[3, -2]`,
two f32 times `[21, 22]`, and one trailing byte. -/
def telEvtHeadStream : List Nat :=
  i32enc 7 ++ (i32enc 9 ++ (u32enc 11 ++ (u32enc 12 ++ (u32enc 13 ++
    (u32enc 14 ++ (i16enc 1280 ++ (scountEnc 2 ++ (encList scountEnc [3, -2] ++
      (encList u32enc [21, 22] ++ [99])))))))))

/-- Claim C7 (code bug): in the version ≥ 2 trigger-sector branch the source
tuple-unpacks the plain integer returned by the scount decoder
(`num_list_trgsect, = read_utf8_like_signed_int(self)`), so a version-2
TelEventHeader with flag bit 0x100 set raises `TypeError` right after the
scount length instead of reading the list; with the intended plain
assignment the very same payload yields `list_trgsect = [3, -2]` and — bit
0x400 being set — `time_trgsect = [21, 22]` of the same length. -/
theorem telEvtHead_trgsect_unpack_bug :
    SimTelTelEvtHead.parse_data_field 2 telEvtHeadStream =
      .error "TypeError: cannot unpack non-iterable int object" ∧
    SimTelTelEvtHead.parse_data_field_intended 2 telEvtHeadStream =
      .ok ({ loc_count := 7, glob_count := 9,
             cpu_time := (11, 12), gps_time := (13, 14),
             trg_source := 0,
             list_trgsect := some [3, -2],
             time_trgsect := some [21, 22],
             num_phys_addr := none, phys_addr := none }, [99]) :=
  ⟨rfl, rfl⟩

theorem centEvent_teltrg_times_witness :
    teltrgTimeByType [((5 : Int), 3)] (u32enc 8 ++ u32enc 9) =
      .ok ([(5, [(0, 8), (1, 9)])], []) ∧
    ([((5 : Int), [((0 : Nat), (8 : Nat)), (1, 9)])].map Prod.fst =
      ([((5 : Int), (3 : Nat))].filter
        (fun p => p.2 ∉ ([1, 2, 4] : List Nat))).map Prod.fst) :=
  ⟨rfl, centEvent_teltrg_times.2.1 [((5 : Int), 3)] (u32enc 8 ++ u32enc 9)
    [(5, [(0, 8), (1, 9)])] [] rfl⟩
